import Mathlib

/-!
Verification of the email-agent frontend core: the workflow reconciler,
the submission controller, and the auth session synchronization, embedded
from `src/app/page.tsx` and `src/app/auth/callback/page.tsx`.
-/

namespace EmailAgent

/-- The four workflow statuses (`WorkflowStatus` in `page.tsx`). -/
inductive WorkflowStatus
  | idle
  | in_progress
  | completed
  | error
deriving DecidableEq

/-- A server-supplied workflow step (`WorkflowStep` in `page.tsx`);
`detail` is optional. -/
structure WorkflowStep where
  name : String
  status : WorkflowStatus
  detail : Option String := none
deriving DecidableEq

/-- One entry of the fixed workflow template (the `icon` render component is
presentational and not modelled). -/
structure TemplateEntry where
  key : String
  label : String
  caption : String
deriving DecidableEq

/-- `WORKFLOW_TEMPLATE` from `page.tsx`: the fixed, ordered four-entry
template. -/
def WORKFLOW_TEMPLATE : List TemplateEntry :=
  [ { key := "Input", label := "Input", caption := "Instruction" },
    { key := "Processing", label := "Processing", caption := "AI Planning" },
    { key := "Sending", label := "Sending", caption := "SMTP Dispatch" },
    { key := "Completed", label := "Completed", caption := "Success" } ]

/-- The merge result consumed by the presentation layer. -/
structure RenderStep where
  key : String
  label : String
  caption : String
  status : WorkflowStatus
  detail : Option String
deriving DecidableEq

/-- Merge one template entry with the server step list, as the body of the
`WORKFLOW_TEMPLATE.map` in `workflowSteps`: look up the first server step
whose `name` equals the template key; `status` is `match?.status ?? "idle"`
and `detail` is `match?.detail`. -/
def mergeStep (serverSteps : List WorkflowStep) (template : TemplateEntry) :
    RenderStep :=
  let hit := serverSteps.find? (fun step => step.name == template.key)
  { key := template.key
    label := template.label
    caption := template.caption
    status := (hit.map (fun step => step.status)).getD .idle
    detail := hit.bind (fun step => step.detail) }

/-- `workflowSteps` from `page.tsx`: the reconciliation of the server step
list with the fixed template. -/
def workflowSteps (serverSteps : List WorkflowStep) : List RenderStep :=
  WORKFLOW_TEMPLATE.map (mergeStep serverSteps)

/-- The detail string shown for a render step: `step.detail ?? step.caption`
at the render site in `Home`. -/
def renderedDetail (r : RenderStep) : String :=
  r.detail.getD r.caption

/-- `AuthPayload` from `page.tsx`; all fields optional. -/
structure AuthPayload where
  email : Option String := none
  name : Option String := none
  picture : Option String := none
  id_token : Option String := none
  access_token : Option String := none
  refresh_token : Option String := none
  expires_in : Option String := none
deriving DecidableEq

/-- JS truthiness of `payload.email`: present and non-empty. -/
def nonEmptyEmail (p : AuthPayload) : Bool :=
  match p.email with
  | some e => e != ""
  | none => false

/-- A raw value held in the key-value store (or delivered by a storage
event / the callback query parameter): either well-formed JSON of an
`AuthPayload`, or data on which `JSON.parse` fails. -/
inductive StoredValue
  | payload (p : AuthPayload)
  | malformed (raw : String)
deriving DecidableEq

/-- `AUTH_STORAGE_KEY` from `page.tsx`. -/
def AUTH_STORAGE_KEY : String := "email-agent-auth"

/-- The identity-related state: current user, the store entry under
`AUTH_STORAGE_KEY`, and the authentication error message. -/
structure AuthState where
  user : Option AuthPayload
  storage : Option StoredValue
  authError : Option String
deriving DecidableEq

/-- `restoreFromStorage` from `page.tsx`: read the stored entry; if it
parses and has a truthy `email`, publish it as the user; parse failures are
caught and ignored. -/
def restoreFromStorage (st : AuthState) : AuthState :=
  match st.storage with
  | some (.payload p) => if nonEmptyEmail p then { st with user := some p } else st
  | some (.malformed _) => st
  | none => st

/-- `messageHandler` from `page.tsx`: ignore the event unless its origin
equals the API origin and the payload carries a truthy `email`; on
acceptance set the user, persist the payload, and clear the auth error. -/
def messageHandler (apiOrigin : String) (st : AuthState)
    (eventOrigin : String) (data : AuthPayload) : AuthState :=
  if eventOrigin != apiOrigin || !(nonEmptyEmail data) then st
  else
    { user := some data
      storage := some (.payload data)
      authError := none }

/-- `storageHandler` from `page.tsx`: react only to changes of
`AUTH_STORAGE_KEY` with a truthy new value; publish the parsed payload when
it has a truthy `email`; parse failures are caught and ignored. -/
def storageHandler (st : AuthState) (key : String)
    (newValue : Option StoredValue) : AuthState :=
  if key == AUTH_STORAGE_KEY then
    match newValue with
    | some (.payload p) => if nonEmptyEmail p then { st with user := some p } else st
    | some (.malformed _) => st
    | none => st
  else st

/-- The generated email draft (`generated_email` in `AgentResponse`). -/
structure EmailDraft where
  recipient_email : String
  recipient_name : Option String := none
  subject : String
  body : String
deriving DecidableEq

/-- The parsed JSON body of the `/agent/run` response. Every field is
optional because the code defends each access (`data.steps ?? []`,
`data.status ?? "error"`, `data?.message ?? ...`,
`data.generated_email ?? null`). -/
structure AgentResponse where
  status : Option WorkflowStatus := none
  message : Option String := none
  steps : Option (List WorkflowStep) := none
  generated_email : Option EmailDraft := none
deriving DecidableEq

/-- The outcome of the `fetch` + `response.json()` round trip:
either a parsed response with its `response.ok` flag, or a thrown
transport/parsing error carrying an optional message (`none` models a
thrown value that is not an `Error`). -/
inductive FetchOutcome
  | response (ok : Bool) (data : AgentResponse)
  | failure (message : Option String)
deriving DecidableEq

/-- The submission-related state hooks of `Home`. -/
structure SubmissionState where
  instruction : String
  serverSteps : List WorkflowStep
  currentStatus : WorkflowStatus
  isSubmitting : Bool
  submitError : Option String
  generatedEmail : Option EmailDraft
deriving DecidableEq

/-- The optimistic four-step snapshot published by `handleSubmit` before the
network call. -/
def optimisticSteps : List WorkflowStep :=
  [ { name := "Input", status := .completed, detail := some "Instruction received." },
    { name := "Processing", status := .in_progress },
    { name := "Sending", status := .idle },
    { name := "Completed", status := .idle } ]

/-- The JSON body of the `/agent/run` request. -/
structure AgentRequest where
  instruction : String
  user_email : Option String
  user_name : Option String
deriving DecidableEq

/-- The request body built by `handleSubmit`: the (untrimmed) instruction
plus `user?.email` and `user?.name`. -/
def mkRequest (user : Option AuthPayload) (instruction : String) : AgentRequest :=
  { instruction := instruction
    user_email := user.bind (fun u => u.email)
    user_name := user.bind (fun u => u.name) }

/-- Model of `String.prototype.trim`: remove leading and trailing
whitespace characters. -/
def jsTrim (s : String) : String :=
  ⟨((s.data.dropWhile Char.isWhitespace).reverse.dropWhile
      Char.isWhitespace).reverse⟩

/-- The guard of `handleSubmit`: a call is accepted iff the trimmed
instruction is non-empty and no submission is in flight
(`!instruction.trim() || isSubmitting` rejects). -/
def submitAccepted (s : SubmissionState) : Bool :=
  !(jsTrim s.instruction == "") && !s.isSubmitting

/-- The synchronous head of `handleSubmit`, up to the `fetch`: either the
guard rejects (no state change, no request), or the state is locked and the
optimistic snapshot published; the returned flag says whether a network
request is issued. -/
def beginSubmit (s : SubmissionState) : SubmissionState × Bool :=
  if jsTrim s.instruction == "" || s.isSubmitting then (s, false)
  else
    ({ s with
        isSubmitting := true
        submitError := none
        generatedEmail := none
        currentStatus := .in_progress
        serverSteps := optimisticSteps }, true)

/-- One React state update issued while resolving a submission. -/
inductive StateUpdate
  | setServerSteps (steps : List WorkflowStep)
  | setCurrentStatus (status : WorkflowStatus)
  | setGeneratedEmail (draft : Option EmailDraft)
  | setInstruction (text : String)
  | setSubmitError (err : Option String)
  | setIsSubmitting (b : Bool)
deriving DecidableEq

/-- Apply one state update to the submission state. -/
def applyUpdate (s : SubmissionState) : StateUpdate → SubmissionState
  | .setServerSteps l => { s with serverSteps := l }
  | .setCurrentStatus st => { s with currentStatus := st }
  | .setGeneratedEmail e => { s with generatedEmail := e }
  | .setInstruction t => { s with instruction := t }
  | .setSubmitError e => { s with submitError := e }
  | .setIsSubmitting b => { s with isSubmitting := b }

/-- The generic error text thrown on a non-ok response without a `message`
field. -/
def genericResponseError : String := "Unable to process automation request."

/-- The fallback used when the caught value is not an `Error`. -/
def genericFailureMessage : String := "Unexpected error"

/-- The state updates of the `try`/`catch` body of `handleSubmit`, in
program order, for each outcome: the success branch after the `ok` check,
the `catch` branch for a non-ok response (the thrown `Error` message is
`data?.message ?? genericResponseError`), and the `catch` branch for a
transport/parsing failure. -/
def tryBlockUpdates : FetchOutcome → List StateUpdate
  | .response true data =>
      [ .setServerSteps (data.steps.getD [])
      , .setCurrentStatus (data.status.getD .error)
      , .setGeneratedEmail data.generated_email
      , .setInstruction "" ]
  | .response false data =>
      [ .setSubmitError (some (data.message.getD genericResponseError))
      , .setCurrentStatus .error ]
  | .failure msg =>
      [ .setSubmitError (some (msg.getD genericFailureMessage))
      , .setCurrentStatus .error ]

/-- Whether an update writes the in-flight flag. -/
def isSetSubmitting : StateUpdate → Bool
  | .setIsSubmitting _ => true
  | _ => false

/-- The full update sequence after the `fetch` resolves: the `try`/`catch`
body followed by the `finally` block's `setIsSubmitting(false)`. -/
def resolveTrace (o : FetchOutcome) : List StateUpdate :=
  tryBlockUpdates o ++ [.setIsSubmitting false]

/-- Resolve a locked submission against a fetch outcome. -/
def resolveSubmit (s : SubmissionState) (o : FetchOutcome) : SubmissionState :=
  (resolveTrace o).foldl applyUpdate s

/-- `handleSubmit` from `page.tsx` as a state transformer: the guard, the
optimistic lock, the single request, and the resolution; the second
component is the request issued (`none` when the call is rejected). -/
def handleSubmit (user : Option AuthPayload) (s : SubmissionState)
    (o : FetchOutcome) : SubmissionState × Option AgentRequest :=
  match beginSubmit s with
  | (s1, false) => (s1, none)
  | (s1, true) => (resolveSubmit s1 o, some (mkRequest user s.instruction))

/-- The state after a `handleSubmit` call. -/
def submitResult (user : Option AuthPayload) (s : SubmissionState)
    (o : FetchOutcome) : SubmissionState :=
  (handleSubmit user s o).1

/-- Number of network requests issued by two `submit` calls in immediate
succession: the second call runs against the state the first call left
behind synchronously, before the first resolves. -/
def requestsIssuedTwice (s : SubmissionState) : Nat :=
  let first := beginSubmit s
  let second := beginSubmit first.1
  (cond first.2 1 0) + (cond second.2 1 0)

/-- `AuthCallbackPage` from `auth/callback/page.tsx` as a function of the
current store entry and the (parsed) `payload` query parameter; the result
is the new store entry and the route navigated to (`router.replace("/")`
runs in every case). -/
def authCallbackRun (store : Option StoredValue) (param : Option StoredValue) :
    Option StoredValue × String :=
  match param with
  | some (.payload p) =>
      ((if nonEmptyEmail p then some (.payload p) else store), "/")
  | some (.malformed _) => (store, "/")
  | none => (store, "/")

/-- Identity either unchanged or overwritten by a payload with a non-empty
email. -/
def identityPreserved (a b : AuthState) : Prop :=
  b.user = a.user ∨ ∃ p, b.user = some p ∧ nonEmptyEmail p = true

/-- C1: for every server step list `S`, the reconciliation is a total
function that returns exactly four `RenderStep`s whose keys appear in the
fixed template order `Input`, `Processing`, `Sending`, `Completed`. -/
theorem c1_reconciliation_total (S : List WorkflowStep) :
    (workflowSteps S).length = 4 ∧
    (workflowSteps S).map RenderStep.key
      = ["Input", "Processing", "Sending", "Completed"] := by
  exact ⟨rfl, rfl⟩

/-- C2: a `submit` call whose trimmed instruction is empty, or made while a
submission is in flight, is a no-op issuing no request and changing no
state; two calls in immediate succession issue exactly one request. -/
theorem c2_submit_guard (u : Option AuthPayload) (s : SubmissionState)
    (o : FetchOutcome) :
    (jsTrim s.instruction = "" → handleSubmit u s o = (s, none)) ∧
    (s.isSubmitting = true → handleSubmit u s o = (s, none)) ∧
    (submitAccepted s = true → requestsIssuedTwice s = 1) := by
  refine ⟨fun h => ?_, fun h => ?_, fun h => ?_⟩
  · simp [handleSubmit, beginSubmit, h]
  · simp [handleSubmit, beginSubmit, h]
  · simp only [submitAccepted, Bool.and_eq_true, Bool.not_eq_true',
      beq_eq_false_iff_ne, ne_eq] at h
    simp [requestsIssuedTwice, beginSubmit, h.1, h.2]

/-- Witness for C2 at concrete inputs: a whitespace-only instruction, an
in-flight state, and an accepted call followed immediately by a second. -/
theorem c2_submit_guard_witness :
    (handleSubmit none
      { instruction := "   ", serverSteps := [], currentStatus := .idle,
        isSubmitting := false, submitError := none, generatedEmail := none }
      (.failure none)
      = ({ instruction := "   ", serverSteps := [], currentStatus := .idle,
            isSubmitting := false, submitError := none, generatedEmail := none },
          none)) ∧
    (handleSubmit none
      { instruction := "go", serverSteps := [], currentStatus := .in_progress,
        isSubmitting := true, submitError := none, generatedEmail := none }
      (.failure none)
      = ({ instruction := "go", serverSteps := [], currentStatus := .in_progress,
            isSubmitting := true, submitError := none, generatedEmail := none },
          none)) ∧
    requestsIssuedTwice
      { instruction := "Send a welcome email", serverSteps := [],
        currentStatus := .idle, isSubmitting := false, submitError := none,
        generatedEmail := none } = 1 :=
  ⟨(c2_submit_guard none _ (.failure none)).1 (by decide),
   (c2_submit_guard none _ (.failure none)).2.1 rfl,
   (c2_submit_guard none
      { instruction := "Send a welcome email", serverSteps := [],
        currentStatus := .idle, isSubmitting := false, submitError := none,
        generatedEmail := none } (.failure none)).2.2 (by decide)⟩

/-- C3: for every accepted call and every successful (`ok`) response, the
step list is replaced by exactly the server-returned steps, the status by
the server-reported status, the draft by the server draft (`none` when
absent), and the instruction is cleared; `steps: []` reconciles to four
idle `RenderStep`s showing their captions. -/
theorem c3_success_response (u : Option AuthPayload) (s : SubmissionState)
    (data : AgentResponse) (h : submitAccepted s = true) :
    (submitResult u s (.response true data)).serverSteps = data.steps.getD [] ∧
    (∀ l, data.steps = some l →
      (submitResult u s (.response true data)).serverSteps = l) ∧
    (∀ st, data.status = some st →
      (submitResult u s (.response true data)).currentStatus = st) ∧
    (submitResult u s (.response true data)).generatedEmail
      = data.generated_email ∧
    (submitResult u s (.response true data)).instruction = "" ∧
    (data.steps = some [] →
      (workflowSteps (submitResult u s (.response true data)).serverSteps).length
          = 4 ∧
      ∀ r ∈ workflowSteps (submitResult u s (.response true data)).serverSteps,
        r.status = .idle ∧ renderedDetail r = r.caption) := by
  simp only [submitAccepted, Bool.and_eq_true, Bool.not_eq_true',
    beq_eq_false_iff_ne, ne_eq] at h
  have hb : beginSubmit s
      = ({ s with
            isSubmitting := true
            submitError := none
            generatedEmail := none
            currentStatus := .in_progress
            serverSteps := optimisticSteps }, true) := by
    simp [beginSubmit, h.1, h.2]
  refine ⟨?_, fun l hl => ?_, fun st hst => ?_, ?_, ?_, fun hempty => ?_⟩ <;>
    simp [submitResult, handleSubmit, hb, resolveSubmit, resolveTrace,
      tryBlockUpdates, applyUpdate, workflowSteps, WORKFLOW_TEMPLATE,
      mergeStep, renderedDetail, *]

/-- Witness for C3: an accepted call against a concrete completed response. -/
theorem c3_success_response_witness :
    (submitResult none
        { instruction := "Send a welcome email", serverSteps := [],
          currentStatus := .idle, isSubmitting := false, submitError := none,
          generatedEmail := none }
        (.response true
          { status := some .completed, message := some "ok",
            steps := some [{ name := "Input", status := .completed }],
            generated_email := none })).serverSteps
      = [{ name := "Input", status := .completed }] :=
  ((c3_success_response none _ _ (by decide)).2.1 _ rfl)

/-- C4 counterexample: a non-2xx response whose body carries a step list.
The claim says the step list is left "as returned by the server if any",
but the code throws before `setServerSteps` runs, so the optimistic
snapshot remains and the server's steps are ignored. -/
theorem c4_counterexample :
    (submitResult none
        { instruction := "hi", serverSteps := [], currentStatus := .idle,
          isSubmitting := false, submitError := none, generatedEmail := none }
        (.response false
          { status := none, message := some "boom",
            steps := some
              [{ name := "Sending", status := .error, detail := some "SMTP failed" }],
            generated_email := none })).serverSteps = optimisticSteps ∧
    (submitResult none
        { instruction := "hi", serverSteps := [], currentStatus := .idle,
          isSubmitting := false, submitError := none, generatedEmail := none }
        (.response false
          { status := none, message := some "boom",
            steps := some
              [{ name := "Sending", status := .error, detail := some "SMTP failed" }],
            generated_email := none })).serverSteps
      ≠ [{ name := "Sending", status := .error, detail := some "SMTP failed" }] := by
  decide

/-- C4 amended: on every non-success response the error text is the body's
`message` when present (the generic failure message otherwise), the status
becomes `error`, and the step list always remains the optimistic snapshot —
steps in the error body are never applied. -/
theorem c4_error_response (u : Option AuthPayload) (s : SubmissionState)
    (data : AgentResponse) (h : submitAccepted s = true) :
    (submitResult u s (.response false data)).submitError
      = some (data.message.getD genericResponseError) ∧
    (submitResult u s (.response false data)).currentStatus = .error ∧
    (submitResult u s (.response false data)).serverSteps = optimisticSteps := by
  simp only [submitAccepted, Bool.and_eq_true, Bool.not_eq_true',
    beq_eq_false_iff_ne, ne_eq] at h
  have hb : beginSubmit s
      = ({ s with
            isSubmitting := true
            submitError := none
            generatedEmail := none
            currentStatus := .in_progress
            serverSteps := optimisticSteps }, true) := by
    simp [beginSubmit, h.1, h.2]
  simp [submitResult, handleSubmit, hb, resolveSubmit, resolveTrace,
    tryBlockUpdates, applyUpdate]

/-- Witness for C4 amended at a concrete accepted call and error response. -/
theorem c4_error_response_witness :
    (submitResult none
        { instruction := "hi", serverSteps := [], currentStatus := .idle,
          isSubmitting := false, submitError := none, generatedEmail := none }
        (.response false
          { status := none, message := none, steps := none,
            generated_email := none })).submitError
      = some genericResponseError :=
  ((c4_error_response none _ _ (by decide)).1)

/-- C5: every accepted `submit` call, before the network round trip, locks
the in-flight flag, clears the prior error and draft, sets the status to
`in_progress`, and publishes exactly the optimistic four-step snapshot;
on transport failure that snapshot is the step list that remains. -/
theorem c5_optimistic_lock (u : Option AuthPayload) (s : SubmissionState)
    (msg : Option String) (h : submitAccepted s = true) :
    beginSubmit s
      = ({ s with
            isSubmitting := true
            submitError := none
            generatedEmail := none
            currentStatus := .in_progress
            serverSteps := optimisticSteps }, true) ∧
    optimisticSteps
      = [ { name := "Input", status := .completed,
            detail := some "Instruction received." },
          { name := "Processing", status := .in_progress },
          { name := "Sending", status := .idle },
          { name := "Completed", status := .idle } ] ∧
    (submitResult u s (.failure msg)).serverSteps = optimisticSteps := by
  simp only [submitAccepted, Bool.and_eq_true, Bool.not_eq_true',
    beq_eq_false_iff_ne, ne_eq] at h
  have hb : beginSubmit s
      = ({ s with
            isSubmitting := true
            submitError := none
            generatedEmail := none
            currentStatus := .in_progress
            serverSteps := optimisticSteps }, true) := by
    simp [beginSubmit, h.1, h.2]
  exact ⟨hb, rfl, by
    simp [submitResult, handleSubmit, hb, resolveSubmit, resolveTrace,
      tryBlockUpdates, applyUpdate]⟩

/-- Witness for C5 at a concrete accepted call with a transport failure. -/
theorem c5_optimistic_lock_witness :
    (submitResult none
        { instruction := "hi", serverSteps := [], currentStatus := .idle,
          isSubmitting := false, submitError := none, generatedEmail := none }
        (.failure (some "network down"))).serverSteps = optimisticSteps :=
  ((c5_optimistic_lock none _ (some "network down") (by decide)).2.2)

/-- C6: for every outcome, the resolution trace releases the in-flight
lock last (the final update is `setIsSubmitting false`), no earlier update
of the trace touches the lock, and the resolved state always has
`isSubmitting = false`. -/
theorem c6_lock_released_last (o : FetchOutcome) :
    (resolveTrace o).getLast? = some (.setIsSubmitting false) ∧
    (resolveTrace o).dropLast.all (fun e => !(isSetSubmitting e)) = true ∧
    (∀ s : SubmissionState,
      ((resolveTrace o).foldl applyUpdate s).isSubmitting = false) := by
  rcases o with ⟨ok, data⟩ | msg
  · cases ok
    · exact ⟨rfl, rfl, fun s => rfl⟩
    · exact ⟨rfl, rfl, fun s => rfl⟩
  · exact ⟨rfl, rfl, fun s => rfl⟩

/-- C7: a cross-context message is accepted iff its origin equals the API
origin and the payload's email is non-empty; on acceptance the payload
becomes the current identity, is persisted, and the auth error is cleared;
otherwise the whole identity state is unchanged. -/
theorem c7_message_acceptance (apiOrigin : String) (st : AuthState)
    (eventOrigin : String) (data : AuthPayload) :
    (¬ (eventOrigin = apiOrigin ∧ nonEmptyEmail data = true) →
      messageHandler apiOrigin st eventOrigin data = st) ∧
    (eventOrigin = apiOrigin → nonEmptyEmail data = true →
      messageHandler apiOrigin st eventOrigin data
        = { user := some data, storage := some (.payload data),
            authError := none }) := by
  constructor
  · intro h
    rcases Decidable.em (eventOrigin = apiOrigin) with he | he
    · have hne : nonEmptyEmail data = false := by
        cases hb : nonEmptyEmail data
        · rfl
        · exact absurd ⟨he, hb⟩ h
      simp [messageHandler, he, hne]
    · simp [messageHandler, he]
  · intro he hne
    simp [messageHandler, he, hne]

/-- Witness for C7: a rejected foreign-origin message and an accepted
matching-origin message, at concrete inputs. -/
theorem c7_message_acceptance_witness :
    (messageHandler "http://localhost:8000"
        { user := none, storage := none, authError := some "stale" }
        "http://evil.example" { email := some "a@b.test" }
      = { user := none, storage := none, authError := some "stale" }) ∧
    (messageHandler "http://localhost:8000"
        { user := none, storage := none, authError := some "stale" }
        "http://localhost:8000" { email := some "a@b.test" }
      = { user := some { email := some "a@b.test" },
          storage := some (.payload { email := some "a@b.test" }),
          authError := none }) :=
  ⟨(c7_message_acceptance "http://localhost:8000"
      { user := none, storage := none, authError := some "stale" }
      "http://evil.example" { email := some "a@b.test" }).1 (by decide),
   (c7_message_acceptance "http://localhost:8000"
      { user := none, storage := none, authError := some "stale" }
      "http://localhost:8000" { email := some "a@b.test" }).2 rfl (by decide)⟩

/-- C8 counterexample: a server step list that does contain a step named
`Input`, with status `idle` and a detail equal to the template caption.
The merged `RenderStep` has status `idle` and shows the caption even though
a matching server step exists, so the "iff" of the claim fails. -/
theorem c8_counterexample :
    (workflowSteps
        [{ name := "Input", status := .idle, detail := some "Instruction" }])[0]?
      = some { key := "Input", label := "Input", caption := "Instruction",
               status := .idle, detail := some "Instruction" } ∧
    renderedDetail
        { key := "Input", label := "Input", caption := "Instruction",
          status := .idle, detail := some "Instruction" } = "Instruction" ∧
    (([{ name := "Input", status := WorkflowStatus.idle,
          detail := some "Instruction" }] : List WorkflowStep).any
      (fun step => step.name == "Input")) = true := by
  decide

/-- C8 amended: if no element of the server list has a name matching a
render step's key, that render step's status is `idle` and its displayed
detail is the template caption; the converse does not hold (a matching
server step with status `idle` and caption-equal detail renders the
same). -/
theorem c8_caption_fallback (S : List WorkflowStep) (r : RenderStep)
    (hr : r ∈ workflowSteps S) (h : ∀ step ∈ S, step.name ≠ r.key) :
    r.status = .idle ∧ renderedDetail r = r.caption := by
  rcases List.mem_map.mp hr with ⟨t, ht, rfl⟩
  have hfind : S.find? (fun step => step.name == t.key) = none := by
    apply List.find?_eq_none.mpr
    intro step hs
    have hname : step.name ≠ t.key := h step hs
    simp [hname]
  simp [mergeStep, renderedDetail, hfind]

/-- Witness for C8 amended: a list with no matching step for `Input`. -/
theorem c8_caption_fallback_witness :
    ({ key := "Input", label := "Input", caption := "Instruction",
        status := .idle, detail := none } : RenderStep).status = .idle ∧
    renderedDetail
        { key := "Input", label := "Input", caption := "Instruction",
          status := .idle, detail := none }
      = ({ key := "Input", label := "Input", caption := "Instruction",
            status := .idle, detail := none } : RenderStep).caption :=
  c8_caption_fallback
    [{ name := "Other", status := .completed, detail := some "x" }]
    { key := "Input", label := "Input", caption := "Instruction",
      status := .idle, detail := none }
    (by decide) (by decide)

/-- C9: identity is never destroyed: each operation (restore, message,
storage change) leaves the current user unchanged or overwrites it with a
payload carrying a non-empty email; malformed persisted or cross-tab data
is ignored and leaves the state unchanged (the handlers are total, so
restoration never crashes). -/
theorem c9_identity_never_destroyed (st : AuthState) :
    identityPreserved st (restoreFromStorage st) ∧
    (∀ apiOrigin eventOrigin data,
      identityPreserved st (messageHandler apiOrigin st eventOrigin data)) ∧
    (∀ key v, identityPreserved st (storageHandler st key v)) ∧
    (∀ raw, restoreFromStorage { st with storage := some (.malformed raw) }
      = { st with storage := some (.malformed raw) }) ∧
    (∀ key raw, storageHandler st key (some (.malformed raw)) = st) := by
  refine ⟨?_, ?_, ?_, fun raw => rfl, fun key raw => ?_⟩
  · cases hs : st.storage with
    | none => exact Or.inl (by simp [restoreFromStorage, hs])
    | some v =>
      cases v with
      | payload p =>
        cases hp : nonEmptyEmail p
        · exact Or.inl (by simp [restoreFromStorage, hs, hp])
        · exact Or.inr ⟨p, by simp [restoreFromStorage, hs, hp], hp⟩
      | malformed raw => exact Or.inl (by simp [restoreFromStorage, hs])
  · intro apiOrigin eventOrigin data
    cases hc : (eventOrigin != apiOrigin || !(nonEmptyEmail data))
    · have hne : nonEmptyEmail data = true := by
        rcases Bool.or_eq_false_iff.mp hc with ⟨-, h2⟩
        simpa using h2
      exact Or.inr ⟨data, by simp [messageHandler, hc], hne⟩
    · exact Or.inl (by simp [messageHandler, hc])
  · intro key v
    cases hk : (key == AUTH_STORAGE_KEY)
    · exact Or.inl (by simp [storageHandler, hk])
    · cases v with
      | none => exact Or.inl (by simp [storageHandler, hk])
      | some sv =>
        cases sv with
        | payload p =>
          cases hp : nonEmptyEmail p
          · exact Or.inl (by simp [storageHandler, hk, hp])
          · exact Or.inr ⟨p, by simp [storageHandler, hk, hp], hp⟩
        | malformed raw => exact Or.inl (by simp [storageHandler, hk])
  · unfold storageHandler
    split
    · rfl
    · rfl

/-- C10: for every store content and every value of the `payload` query
parameter, the auth callback writes the re-serialized payload under the
auth key exactly when the parameter parses to a payload with a non-empty
email, writes nothing on a missing parameter, a parse failure, or an
absent email, and always navigates to the root page. -/
theorem c10_auth_callback (store : Option StoredValue) :
    (authCallbackRun store none = (store, "/")) ∧
    (∀ raw, authCallbackRun store (some (.malformed raw)) = (store, "/")) ∧
    (∀ p, authCallbackRun store (some (.payload p))
      = ((if nonEmptyEmail p then some (.payload p) else store), "/")) ∧
    (∀ param, (authCallbackRun store param).2 = "/") := by
  refine ⟨rfl, fun raw => rfl, fun p => rfl, fun param => ?_⟩
  rcases param with _ | (⟨p⟩ | ⟨raw⟩)
  · rfl
  · rfl
  · rfl

end EmailAgent
